import Mathlib

/-!
Verification of the Crewmeister Home Assistant integration
(`custom_components/crewmeister`): a shallow embedding in Lean 4 of the
status deriver (`coordinator.py`), the stamp-button transition logic
(`button.py`), and the API client's token / retry / decoding helpers
(`api.py`), together with theorems settling the specified properties.

Modelling conventions:
* Loosely-typed JSON values are an inductive `JVal`; a Python dict of JSON
  data is an association list `RawDict` with `dictGetPy` reproducing
  `dict.get` (a JSON `null` value behaves like a missing key, exactly as
  Python's `None` result of `dict.get` does).
* Python exceptions raised by a function are an `Except String` result or
  an `Option` result; `none` / `Except.error` marks the raise.
* Machine-level standard-library services that the repository merely calls
  (base64 decoding, JSON parsing) are abstract function parameters, so the
  theorems hold for every behaviour of those services.
-/

/-- A loosely-typed JSON value as handled by the Python source. -/
inductive JVal : Type where
  | jnull : JVal
  | jbool : Bool → JVal
  | jint : Int → JVal
  | jstr : String → JVal
  | jobj : List (String × JVal) → JVal

/-- A Python dict holding JSON data, as an association list (keys unique
in practice; lookup takes the first binding, as a dict would). -/
def RawDict : Type := List (String × JVal)

/-- Raw association-list lookup. -/
def dictLookup (d : RawDict) (key : String) : Option JVal :=
  match d with
  | [] => none
  | (k, v) :: rest => if k = key then some v else dictLookup rest key

/-- Python `dict.get(key)`: a JSON `null` stored under the key gives the
same `None` result as a missing key. -/
def dictGetPy (d : RawDict) (key : String) : Option JVal :=
  match dictLookup d key with
  | some JVal.jnull => none
  | v => v

/-- Python `value == s` for a string literal `s` and a loosely-typed
`value` (true exactly when the value is that string). -/
def isStr (v : Option JVal) (s : String) : Bool :=
  match v with
  | some (JVal.jstr t) => t == s
  | _ => false

/-- Python truthiness of a JSON value (`if value:`). -/
def jTruthy : Option JVal → Bool
  | none => false
  | some JVal.jnull => false
  | some (JVal.jbool b) => b
  | some (JVal.jint n) => n != 0
  | some (JVal.jstr s) => s != ""
  | some (JVal.jobj l) => !l.isEmpty

/-! ## Constants (`const.py`) -/

def STAMP_TYPE_START_WORK : String := "START_WORK"

def STAMP_TYPE_CLOCK_OUT : String := "CLOCK_OUT"

def STAMP_TYPE_START_BREAK : String := "START_BREAK"

def STAMP_TYPES : List String :=
  [STAMP_TYPE_START_WORK, STAMP_TYPE_START_BREAK, STAMP_TYPE_CLOCK_OUT]

def TOKEN_REFRESH_MARGIN : Int := 300

/-! ## Status deriver (`coordinator.py`, `_derive_status`)

`CrewmeisterStamp.stamp_type` / `.status` are `raw.get("stampType")` /
`raw.get("stampStatus")`; `_derive_status` takes the optional latest stamp
(`none` models Python `None`; a `CrewmeisterStamp` object itself is always
truthy). The Python early-`return` ladder is linearised into the equivalent
`if`-chain. -/

def stampTypeOf (raw : RawDict) : Option JVal := dictGetPy raw "stampType"

def stampStatusOf (raw : RawDict) : Option JVal := dictGetPy raw "stampStatus"

def deriveStatus (stamp : Option RawDict) : String :=
  match stamp with
  | none => "clocked_out"
  | some raw =>
    let ty := stampTypeOf raw
    let status := stampStatusOf raw
    if isStr status "OPEN" && isStr ty STAMP_TYPE_START_BREAK then
      "on_break"
    else if isStr status "OPEN" && isStr ty STAMP_TYPE_START_WORK then
      "clocked_in"
    else if isStr ty STAMP_TYPE_CLOCK_OUT then
      "clocked_out"
    else
      "clocked_out"

/-- The status table exactly as the spec (§4.2) words it: no stamp →
`clocked_out`; status `OPEN` with type `START_BREAK` → `on_break`; status
`OPEN` with type `START_WORK` → `clocked_in`; every other combination →
`clocked_out`. -/
def specDeriveStatus (stamp : Option RawDict) : String :=
  match stamp with
  | none => "clocked_out"
  | some raw =>
    if isStr (stampStatusOf raw) "OPEN" then
      if isStr (stampTypeOf raw) "START_BREAK" then "on_break"
      else if isStr (stampTypeOf raw) "START_WORK" then "clocked_in"
      else "clocked_out"
    else "clocked_out"

/-! ## Stamp buttons (`button.py`)

`CrewmeisterStampButton._ensure_valid_transition`, `_extract_chain_start`,
`_coerce_int`, `_prepare_stamp_kwargs` and `async_press`, together with the
`stamp_type`-validation and payload construction of
`CrewmeisterClient.async_create_stamp` (`api.py`). The coordinator snapshot
is modelled by the fields the button layer reads (`latest_stamp`,
`status`); `none` is the pre-first-refresh state where
`self.coordinator.data` is not a dict. Only the payload fields the claims
are about (`chainStartStampId`, `allocationDate`) are modelled on the
request; `today` stands for `datetime.now(utc).date().isoformat()`, the
default allocation date. -/

/-- Model of Python `int(s)` on a string: optional surrounding whitespace,
optional sign, decimal digits; anything else raises `ValueError` (`none`). -/
def pyIntOfString (s : String) : Option Int :=
  match (s.trim).data with
  | '-' :: rest => (String.mk rest).toNat?.map (fun n => -(n : Int))
  | '+' :: rest => (String.mk rest).toNat?.map (fun n => (n : Int))
  | _ => (s.trim).toNat?.map (fun n => (n : Int))

/-- `CrewmeisterStampButton._coerce_int`. Python's `isinstance(value, int)`
is true for `bool` as well, hence the boolean case. -/
def coerceInt (value : Option JVal) : Option Int :=
  match value with
  | some (JVal.jbool b) => some (if b then 1 else 0)
  | some (JVal.jint n) => some n
  | some (JVal.jstr s) => pyIntOfString s
  | _ => none

/-- `CrewmeisterStampButton._extract_chain_start`. An empty dict is falsy
in Python, so `if not latest_stamp` also catches `{}`. -/
def extractChainStart (latest : Option RawDict) : Option Int :=
  match latest with
  | none => none
  | some l =>
    if l.isEmpty then none
    else
      let rawValue :=
        match dictGetPy l "chainStartStampId" with
        | none => dictGetPy l "chain_start_stamp_id"
        | v => v
      match coerceInt rawValue with
      | some v => some v
      | none => coerceInt (dictGetPy l "id")

/-- `CrewmeisterStampButton._ensure_valid_transition`: `some msg` models the
`HomeAssistantError` raised with that message, `none` means the transition
is accepted. -/
def ensureValidTransition (stampType : String) (status : Option String) : Option String :=
  match status with
  | none => none
  | some st =>
    if stampType = STAMP_TYPE_START_WORK then
      if st = "clocked_in" then
        some "Failed to trigger Crewmeister stamp: already clocked in"
      else none
    else if stampType = STAMP_TYPE_START_BREAK then
      if st ≠ "clocked_in" then
        some "Failed to trigger Crewmeister stamp: no active shift to pause"
      else none
    else if stampType = STAMP_TYPE_CLOCK_OUT then
      if st ≠ "clocked_in" ∧ st ≠ "on_break" then
        some "Failed to trigger Crewmeister stamp: no active shift to clock out from"
      else none
    else none

/-- The keyword arguments `_prepare_stamp_kwargs` may put into its result
dict (`none` = key absent). -/
structure StampKwargs where
  chain_start_stamp_id : Option Int
  allocation_date : Option String
  deriving DecidableEq, Repr

def emptyKwargs : StampKwargs := { chain_start_stamp_id := none, allocation_date := none }

/-- `CrewmeisterStampButton._prepare_stamp_kwargs`. -/
def prepareStampKwargs (stampType : String) (status : Option String)
    (latest : Option RawDict) : StampKwargs :=
  let chainStart := extractChainStart latest
  let allocationDate :=
    match latest with
    | some l => dictGetPy l "allocationDate"
    | none => none
  let includeChain : Bool :=
    if stampType = STAMP_TYPE_START_WORK then status == some "on_break"
    else if stampType = STAMP_TYPE_START_BREAK ∨ stampType = STAMP_TYPE_CLOCK_OUT then true
    else false
  if includeChain then
    match chainStart with
    | some cs =>
      { chain_start_stamp_id := some cs
        allocation_date :=
          match allocationDate with
          | some (JVal.jstr a) => if a ≠ "" then some a else none
          | _ => none }
    | none => emptyKwargs
  else emptyKwargs

/-- The subset of the `async_create_stamp` POST payload the claims are
about (`chainStartStampId` is in the payload iff `some`; `allocationDate`
is always present, defaulted to the timestamp's date `today`). -/
structure StampRequest where
  stampType : String
  chainStartStampId : Option Int
  allocationDate : String
  deriving DecidableEq, Repr

/-- Payload construction and local validation of
`CrewmeisterClient.async_create_stamp` (network send abstracted away:
`Except.ok` is the request that goes on the wire). -/
def createStamp (today : String) (stampType : String) (kwargs : StampKwargs) :
    Except String StampRequest :=
  if stampType ∈ STAMP_TYPES then
    Except.ok
      { stampType := stampType
        chainStartStampId := kwargs.chain_start_stamp_id
        allocationDate :=
          match kwargs.allocation_date with
          | some a => if a ≠ "" then a else today
          | none => today }
  else Except.error ("Unsupported stamp type: " ++ stampType)

/-- The coordinator snapshot fields read by the button layer
(`CrewmeisterStatusCoordinator._async_update_data` always stores both). -/
structure Snapshot where
  latest_stamp : Option RawDict
  status : String

/-- The snapshot produced by a successful coordinator refresh. -/
def coordinatorSnapshot (stamp : Option RawDict) : Snapshot :=
  { latest_stamp := stamp, status := deriveStatus stamp }

/-- `CrewmeisterStampButton.async_press`: validate the transition, build
the kwargs, then issue the create-stamp call. `data = none` models
`self.coordinator.data` not being a dict (before the first refresh). -/
def asyncPress (today : String) (stampType : String) (data : Option Snapshot) :
    Except String StampRequest :=
  let status := data.map Snapshot.status
  match ensureValidTransition stampType status with
  | some err => Except.error err
  | none =>
    let kwargs := prepareStampKwargs stampType status (data.bind Snapshot.latest_stamp)
    createStamp today stampType kwargs

/-- The spec's §8 example stamp:
`{"stampType":"START_WORK","stampStatus":"OPEN","id":42,"allocationDate":"2024-05-01"}`. -/
def exampleStamp : RawDict :=
  [("stampType", JVal.jstr "START_WORK"), ("stampStatus", JVal.jstr "OPEN"),
   ("id", JVal.jint 42), ("allocationDate", JVal.jstr "2024-05-01")]

/-- A latest stamp from which no chain id can be determined (no
`chainStartStampId`, no `id`). -/
def noChainStamp : RawDict :=
  [("stampType", JVal.jstr "START_WORK"), ("stampStatus", JVal.jstr "OPEN")]

/-! ## Token lifecycle and authorized requests (`api.py`)

`CrewmeisterClient` token state: `_token` together with the expiration the
client derived from the token payload's `exp` claim
(`_extract_token_expiration`; a missing or invalid claim gives `none`).
Times are whole seconds (`exp` is an integer UNIX timestamp; `now` is the
current UTC time in seconds). The auth endpoint is modelled by the token it
issues (`issued`), and the wire by the HTTP status of each successive
request (`statuses`). -/

/-- A stored token, reduced to the expiration the client extracted from
its payload. -/
structure TokenInfo where
  exp : Option Int
  deriving DecidableEq, Repr

/-- The client's mutable token state. -/
structure ClientState where
  token : Option TokenInfo
  deriving DecidableEq, Repr

/-- The environment of a client call: current time, the token a login
yields, and the HTTP status of the i-th wire request. -/
structure ApiEnv where
  now : Int
  issued : TokenInfo
  statuses : Nat → Nat

/-- `async_login`: store the freshly issued token (network always reachable
and returning 200 here; auth failures abort the whole call and are outside
the 401-retry claim). -/
def loginState (env : ApiEnv) : ClientState :=
  { token := some env.issued }

/-- The refresh condition of `async_ensure_logged_in`: no token, no
expiration, or expiration within `TOKEN_REFRESH_MARGIN` seconds of now. -/
def needsRefresh (now : Int) (st : ClientState) : Bool :=
  match st.token with
  | none => true
  | some t =>
    match t.exp with
    | none => true
    | some e => e - now < TOKEN_REFRESH_MARGIN

/-- `async_ensure_logged_in`: re-login when needed, else a no-op. Also
returns how many login calls were performed (0 or 1). -/
def ensureLoggedIn (env : ApiEnv) (st : ClientState) : ClientState × Nat :=
  if needsRefresh env.now st then (loginState env, 1) else (st, 0)

/-- Observable outcome of `async_api_request`: final client state, number
of login calls performed, number of wire requests performed, and the HTTP
status of the response returned to the caller. -/
structure ReqOutcome where
  state : ClientState
  logins : Nat
  requests : Nat
  status : Nat
  deriving Repr

/-- `async_api_request`: ensure logged in, perform the wire request; on a
401 with `retry_on_unauthorized` set, re-login once and recurse with the
flag cleared. `idx` indexes the wire request in `env.statuses`. -/
def asyncApiRequest (env : ApiEnv) (st : ClientState) (retryOnUnauthorized : Bool)
    (idx : Nat) : ReqOutcome :=
  let ensured := ensureLoggedIn env st
  let code := env.statuses idx
  if code = 401 ∧ retryOnUnauthorized then
    let rest := asyncApiRequest env (loginState env) false (idx + 1)
    { state := rest.state, logins := ensured.2 + 1 + rest.logins,
      requests := 1 + rest.requests, status := rest.status }
  else
    { state := ensured.1, logins := ensured.2, requests := 1, status := code }
termination_by (if retryOnUnauthorized then 1 else 0)
decreasing_by simp_all

/-- `_request_json`: an `async_api_request` whose response status is ≥ 400
raises `CrewmeisterError`; otherwise the body is returned. -/
def requestJson (env : ApiEnv) (st : ClientState) (idx : Nat) : Except String Nat :=
  let outcome := asyncApiRequest env st true idx
  if outcome.status ≥ 400 then Except.error "Crewmeister API error"
  else Except.ok outcome.status

/-- Fixture environment: time 0, logins issue a token expiring far in the
future, every wire request succeeds. -/
def envOk : ApiEnv :=
  { now := 0, issued := { exp := some 100000 }, statuses := fun _ => 200 }

/-- Fixture environment: first wire request is rejected with 401, the
retried one succeeds. -/
def env401Then200 : ApiEnv :=
  { now := 0, issued := { exp := some 100000 },
    statuses := fun i => if i = 0 then 401 else 200 }

/-! ## JWT payload decoding (`api.py`, `decode_jwt_payload`)

`base64.urlsafe_b64decode` and `json.loads` are Python standard-library
services, modelled as abstract decoders, so the theorems hold for every
behaviour of those decoders. `urlsafe_b64decode` fails only with
`binascii.Error` (a `ValueError`) or `TypeError`, both caught by the
source, so its failures are one `none` outcome. `json.loads`, however, has
two distinct failure modes: `json.JSONDecodeError`, which the source
catches, and other exceptions — in particular the `UnicodeDecodeError` it
raises while UTF-8-decoding input bytes that are not valid UTF-8 (CPython
`json/__init__.py` decodes the bytes before parsing; `UnicodeDecodeError`
is a `ValueError` but not a `JSONDecodeError`) — which the source's
`except json.JSONDecodeError` clause does not catch. Parsed JSON is
represented by `JVal`; the empty claims mapping is `JVal.jobj []`; an
uncaught exception escaping `decode_jwt_payload` is `Except.error`. -/

/-- Outcome of a `json.loads` call on a byte string. -/
inductive JsonLoadResult : Type where
  | ok : JVal → JsonLoadResult
  | jsonDecodeError : JsonLoadResult
  | uncaughtError : JsonLoadResult

/-- Python `token.split(".")` on the character list (structural, so it
evaluates in the kernel): splitting an empty string gives `[""]`, exactly
as in Python. -/
def splitOnChar (sep : Char) : List Char → List (List Char)
  | [] => [[]]
  | c :: rest =>
    let r := splitOnChar sep rest
    if c = sep then [] :: r
    else
      match r with
      | [] => [[c]]
      | g :: gs => (c :: g) :: gs

/-- `token.split(".")` as a list of strings. -/
def pySplitDot (s : String) : List String :=
  (splitOnChar '.' s.data).map String.mk

/-- The padding step `payload_b64 += "=" * (-len(payload_b64) % 4)`. -/
def padB64 (s : String) : String :=
  s ++ String.mk (List.replicate ((4 - s.length % 4) % 4) '=')

/-- `decode_jwt_payload`: split on dots, require exactly three segments,
base64url-decode the padded middle segment, JSON-parse it. Segment-count
mismatches, base64 failures and `JSONDecodeError` yield the empty mapping;
any other `json.loads` exception propagates (`Except.error`). -/
def decodeJwtPayload (b64decode : String → Option (List Nat))
    (jsonLoads : List Nat → JsonLoadResult) (token : String) : Except String JVal :=
  let parts := pySplitDot token
  if parts.length ≠ 3 then Except.ok (JVal.jobj [])
  else
    let payloadB64 := padB64 (parts.getD 1 "")
    match b64decode payloadB64 with
    | none => Except.ok (JVal.jobj [])
    | some decoded =>
      match jsonLoads decoded with
      | JsonLoadResult.ok j => Except.ok j
      | JsonLoadResult.jsonDecodeError => Except.ok (JVal.jobj [])
      | JsonLoadResult.uncaughtError => Except.error "UnicodeDecodeError"

/-- Fixture decoder that always fails. -/
def b64None : String → Option (List Nat) := fun _ => none

/-- Fixture decoder that always yields the single byte 1. -/
def b64Fix : String → Option (List Nat) := fun _ => some [1]

/-- `urlsafe_b64decode` on the padded middle segment of the token
`a._w.c`: `"_w=="` decodes without error to the single byte `0xff`
(`b64decode("_w==") == b'\xff'`); other inputs are irrelevant here. -/
def b64UnderscoreW : String → Option (List Nat) :=
  fun s => if s = "_w==" then some [255] else none

/-- CPython `json.loads` on the byte strings this development meets: the
single byte `0xff` is not valid UTF-8, so `loads` raises
`UnicodeDecodeError` while decoding it — an exception that is not a
`JSONDecodeError`; every other input fails as JSON. -/
def jsonLoadsCPython : List Nat → JsonLoadResult :=
  fun bs => if bs = [255] then JsonLoadResult.uncaughtError
    else JsonLoadResult.jsonDecodeError

/-! ## Python string helpers shared by the translation lookup and the
timestamp round-trip: structural (kernel-evaluable) models of
`str.lower()`, `str.replace(old, new)` and `str.split(sep, 1)[0]`. -/

/-- `str.replace(pat, rep)` on character lists, scanning left to right and
replacing non-overlapping occurrences; `fuel` bounds the recursion (it is
instantiated with the list length, which suffices because each step
consumes at least one character). Structural recursion so that it
evaluates in the kernel. -/
def replaceAllAux (pat rep : List Char) : Nat → List Char → List Char
  | _, [] => []
  | 0, s => s
  | fuel + 1, c :: rest =>
    if pat.isPrefixOf (c :: rest) && !pat.isEmpty then
      rep ++ replaceAllAux pat rep fuel (rest.drop (pat.length - 1))
    else c :: replaceAllAux pat rep fuel rest

/-- Python `s.replace(pat, rep)` (for non-empty `pat`, the only use in the
source). -/
def pyReplace (s pat rep : String) : String :=
  String.mk (replaceAllAux pat.data rep.data s.data.length s.data)

/-- Python `s.lower()` (the keys and tags involved are ASCII). -/
def pyToLower (s : String) : String :=
  String.mk (s.data.map Char.toLower)

/-- Python `s.split("-", 1)[0]`: everything before the first dash. -/
def primarySubtag (s : String) : String :=
  String.mk ((splitOnChar '-' s.data).headD s.data)

/-! ## Absence-type name resolution (`api.py`,
`async_get_absence_type_name`, `_extract_translated_name`,
`_iter_translation_matches`)

The client's configured language is modelled already normalised
(`_normalize_language` only swaps underscores for dashes and strips). The
absence-type metadata object is a `RawDict` whose `translations` /
`nameTranslations` entries are nested dicts (`JVal.jobj`). String results
are returned as `JVal` values because the Python fallback chain
`info.get("name") or ...` returns whatever value is stored. -/

/-- Python `a or b` on two loosely-typed values. -/
def pyOrJ (a b : Option JVal) : Option JVal :=
  if jTruthy a then a else b

/-- `_iter_translation_matches`: collect, in mapping order, the non-empty
string values whose key matches the language exactly (case-insensitively,
underscores normalised) or whose primary subtag matches. -/
def iterTranslationMatches (translations : List (String × JVal))
    (langLower langPrimary : String) : List String :=
  translations.foldl
    (fun acc kv =>
      match kv.2 with
      | JVal.jstr value =>
        if value = "" then acc
        else
          let keyLower := pyToLower kv.1
          if keyLower = langLower ∨ pyReplace keyLower "_" "-" = langLower then
            acc ++ [value]
          else if keyLower = langPrimary ∨ primarySubtag keyLower = langPrimary then
            acc ++ [value]
          else acc
      | _ => acc)
    []

/-- The `for candidate in candidates: if candidate: return candidate` loop. -/
def firstTruthyString : List String → Option String
  | [] => none
  | c :: rest => if c ≠ "" then some c else firstTruthyString rest

/-- `_extract_translated_name`. Note the source returns the generic
localized-name field (`displayNameLocalized` / `nameLocalized`) before it
ever looks at the collected translation candidates. -/
def extractTranslatedName (data : RawDict) (language : Option String) : Option String :=
  match language with
  | none => none
  | some language =>
    let langLower := pyToLower language
    let langPrimary := primarySubtag langLower
    let fromTranslations :=
      match dictGetPy data "translations" with
      | some (JVal.jobj t) => iterTranslationMatches t langLower langPrimary
      | _ => []
    let fromNameTranslations :=
      match dictGetPy data "nameTranslations" with
      | some (JVal.jobj t) => iterTranslationMatches t langLower langPrimary
      | _ => []
    let candidates := fromTranslations ++ fromNameTranslations
    let localized := pyOrJ (dictGetPy data "displayNameLocalized") (dictGetPy data "nameLocalized")
    match localized with
    | some (JVal.jstr s) =>
      if s ≠ "" then some s else firstTruthyString candidates
    | _ => firstTruthyString candidates

/-- `async_get_absence_type_name` given the fetched metadata `info`
(`none` models both a failed fetch and Python-falsy metadata): a truthy
translation wins, else `info.get("name") or info.get("displayName") or
info.get("absenceTypeName")`. -/
def absenceTypeName (info : Option RawDict) (language : Option String) : Option JVal :=
  match info with
  | none => none
  | some data =>
    if data.isEmpty then none
    else
      match extractTranslatedName data language with
      | some t =>
        if t ≠ "" then some (JVal.jstr t)
        else pyOrJ (pyOrJ (dictGetPy data "name") (dictGetPy data "displayName"))
          (dictGetPy data "absenceTypeName")
      | none =>
        pyOrJ (pyOrJ (dictGetPy data "name") (dictGetPy data "displayName"))
          (dictGetPy data "absenceTypeName")

/-- Name resolution in the precedence order the claim states: an exact
language-tag match among the translations first, then a primary-subtag
match, then the generic localized-name field, then the generic
`name`/`displayName`/`absenceTypeName` fields. -/
def specAbsenceTypeName (info : Option RawDict) (language : Option String) : Option JVal :=
  match info with
  | none => none
  | some data =>
    if data.isEmpty then none
    else
      let fallback :=
        pyOrJ (pyOrJ (dictGetPy data "name") (dictGetPy data "displayName"))
          (dictGetPy data "absenceTypeName")
      match language with
      | none => fallback
      | some language =>
        let langLower := pyToLower language
        let langPrimary := primarySubtag langLower
        let allTranslations :=
          (match dictGetPy data "translations" with
            | some (JVal.jobj t) => t
            | _ => []) ++
          (match dictGetPy data "nameTranslations" with
            | some (JVal.jobj t) => t
            | _ => [])
        let exactMatches := allTranslations.foldl
          (fun acc kv =>
            match kv.2 with
            | JVal.jstr value =>
              if value ≠ "" ∧ (pyToLower kv.1 = langLower
                  ∨ pyReplace (pyToLower kv.1) "_" "-" = langLower) then
                acc ++ [value]
              else acc
            | _ => acc) []
        let primaryMatches := allTranslations.foldl
          (fun acc kv =>
            match kv.2 with
            | JVal.jstr value =>
              if value ≠ "" ∧ (pyToLower kv.1 = langPrimary
                  ∨ primarySubtag (pyToLower kv.1) = langPrimary) then
                acc ++ [value]
              else acc
            | _ => acc) []
        match firstTruthyString (exactMatches ++ primaryMatches) with
        | some t => some (JVal.jstr t)
        | none =>
          match pyOrJ (dictGetPy data "displayNameLocalized") (dictGetPy data "nameLocalized") with
          | some (JVal.jstr s) => if s ≠ "" then some (JVal.jstr s) else fallback
          | _ => fallback

/-- Metadata on which the source and the claimed precedence disagree: an
exact translation match for `en` next to a generic localized-name field. -/
def c8Info : RawDict :=
  [("translations", JVal.jobj [("en", JVal.jstr "ExactName")]),
   ("displayNameLocalized", JVal.jstr "LocalizedName"),
   ("name", JVal.jstr "GenericName")]

/-- The precedence the code actually implements: the generic
localized-name field (`displayNameLocalized`, else `nameLocalized`) wins
first; otherwise the first non-empty translation collected from
`translations` then `nameTranslations` in mapping order (exact-tag and
primary-subtag matches interleaved, not prioritised); otherwise
`name`/`displayName`/`absenceTypeName`. -/
def amendedAbsenceTypeName (info : Option RawDict) (language : Option String) : Option JVal :=
  match info with
  | none => none
  | some data =>
    if data.isEmpty then none
    else
      let fallback :=
        pyOrJ (pyOrJ (dictGetPy data "name") (dictGetPy data "displayName"))
          (dictGetPy data "absenceTypeName")
      match language with
      | none => fallback
      | some language =>
        let langLower := pyToLower language
        let langPrimary := primarySubtag langLower
        let pool :=
          (match dictGetPy data "translations" with
            | some (JVal.jobj t) => iterTranslationMatches t langLower langPrimary
            | _ => []) ++
          (match dictGetPy data "nameTranslations" with
            | some (JVal.jobj t) => iterTranslationMatches t langLower langPrimary
            | _ => [])
        match pyOrJ (dictGetPy data "displayNameLocalized") (dictGetPy data "nameLocalized") with
        | some (JVal.jstr s) =>
          if s ≠ "" then some (JVal.jstr s)
          else
            match firstTruthyString pool with
            | some t => some (JVal.jstr t)
            | none => fallback
        | _ =>
          match firstTruthyString pool with
          | some t => some (JVal.jstr t)
          | none => fallback

/-! ## Stamp timestamp round-trip (`api.py`, `async_create_stamp` and
`CrewmeisterStamp.timestamp`)

A timezone-aware Python datetime is identified with its UTC components
plus microseconds (`astimezone(timezone.utc)` maps any aware datetime to
the UTC components of the same instant, a bijection between instants and
UTC component tuples, so equality of UTC components is equality of UTC
instants). The encoder is
`timestamp_utc.replace(microsecond=0).isoformat().replace("+00:00", "Z")`;
the accessor re-parses with `datetime.fromisoformat(value.replace("Z",
"+00:00"))`. `isoformat` of a UTC-aware datetime with zero microseconds
and `fromisoformat` on the produced grammar are modelled character by
character (zero-padded fields, fixed separators, `+00:00` offset). -/

structure UtcTimestamp where
  year : Nat
  month : Nat
  day : Nat
  hour : Nat
  minute : Nat
  second : Nat
  micro : Nat
  deriving DecidableEq, Repr

/-- Python `calendar`/`datetime` leap-year rule. -/
def isLeapYear (y : Nat) : Bool :=
  (y % 4 == 0 && y % 100 != 0) || y % 400 == 0

/-- Days in a month, as validated by `datetime.__new__`. -/
def daysInMonth (y m : Nat) : Nat :=
  match m with
  | 1 => 31
  | 2 => if isLeapYear y then 29 else 28
  | 3 => 31
  | 4 => 30
  | 5 => 31
  | 6 => 30
  | 7 => 31
  | 8 => 31
  | 9 => 30
  | 10 => 31
  | 11 => 30
  | 12 => 31
  | _ => 0

/-- The range invariants of a (UTC-normalised) Python datetime. -/
def validTs (t : UtcTimestamp) : Prop :=
  1 ≤ t.year ∧ t.year ≤ 9999 ∧ 1 ≤ t.month ∧ t.month ≤ 12
    ∧ 1 ≤ t.day ∧ t.day ≤ daysInMonth t.year t.month
    ∧ t.hour < 24 ∧ t.minute < 60 ∧ t.second < 60 ∧ t.micro < 1000000

instance (t : UtcTimestamp) : Decidable (validTs t) := by
  unfold validTs
  infer_instance

/-- `datetime.replace(microsecond=0)`. -/
def truncateToSeconds (t : UtcTimestamp) : UtcTimestamp :=
  { t with micro := 0 }

def digitOf (n : Nat) : Char := Char.ofNat (48 + n)

/-- Two-digit zero-padded field of `isoformat`. -/
def pad2 (n : Nat) : List Char := [digitOf (n / 10), digitOf (n % 10)]

/-- Four-digit zero-padded year field of `isoformat`. -/
def pad4 (n : Nat) : List Char :=
  [digitOf (n / 1000), digitOf (n / 100 % 10), digitOf (n / 10 % 10), digitOf (n % 10)]

/-- The date-time part of `isoformat()`: `YYYY-MM-DDTHH:MM:SS` (zero
microseconds are not printed). -/
def isoBody (t : UtcTimestamp) : List Char :=
  pad4 t.year ++ '-' :: (pad2 t.month ++ '-' :: (pad2 t.day ++ 'T' ::
    (pad2 t.hour ++ ':' :: (pad2 t.minute ++ ':' :: pad2 t.second))))

/-- `isoformat()` of a UTC-aware datetime with zero microseconds:
body plus the `+00:00` offset. -/
def isoformatUtc (t : UtcTimestamp) : String :=
  String.mk (isoBody t ++ "+00:00".data)

/-- The timestamp string `async_create_stamp` puts into the payload:
`timestamp_utc.replace(microsecond=0).isoformat().replace("+00:00", "Z")`. -/
def encodeStampTimestamp (t : UtcTimestamp) : String :=
  pyReplace (isoformatUtc (truncateToSeconds t)) "+00:00" "Z"

def digitVal (c : Char) : Option Nat :=
  if 48 ≤ c.toNat ∧ c.toNat ≤ 57 then some (c.toNat - 48) else none

def read2 : List Char → Option (Nat × List Char)
  | a :: b :: rest =>
    match digitVal a, digitVal b with
    | some x, some y => some (10 * x + y, rest)
    | _, _ => none
  | _ => none

def read4 : List Char → Option (Nat × List Char)
  | a :: b :: c :: d :: rest =>
    match digitVal a, digitVal b, digitVal c, digitVal d with
    | some x, some y, some z, some w => some (1000 * x + 100 * y + 10 * z + w, rest)
    | _, _, _, _ => none
  | _ => none

def expectChar (c : Char) : List Char → Option (List Char)
  | x :: rest => if x = c then some rest else none
  | [] => none

/-- A separator followed by a two-digit field. -/
def readField (sep : Char) (s : List Char) : Option (Nat × List Char) :=
  match expectChar sep s with
  | none => none
  | some s1 => read2 s1

/-- The UTC offset suffix `+00:00` (the only offset the encoder produces). -/
def parseOffsetUtc (s : List Char) : Option Unit :=
  match s with
  | '+' :: '0' :: '0' :: ':' :: '0' :: '0' :: [] => some ()
  | _ => none

/-- `datetime.fromisoformat` on the grammar the accessor actually meets
(`YYYY-MM-DDTHH:MM:SS+00:00`): parse the fixed-width fields, require the
UTC offset, and validate the ranges `datetime.__new__` enforces. -/
def parseIsoUtc (s : List Char) : Option UtcTimestamp :=
  match read4 s with
  | none => none
  | some (y, s1) =>
    match readField '-' s1 with
    | none => none
    | some (mo, s2) =>
      match readField '-' s2 with
      | none => none
      | some (d, s3) =>
        match readField 'T' s3 with
        | none => none
        | some (h, s4) =>
          match readField ':' s4 with
          | none => none
          | some (mi, s5) =>
            match readField ':' s5 with
            | none => none
            | some (sec, s6) =>
              match parseOffsetUtc s6 with
              | none => none
              | some _ =>
                if 1 ≤ y ∧ 1 ≤ mo ∧ mo ≤ 12 ∧ 1 ≤ d ∧ d ≤ daysInMonth y mo
                    ∧ h < 24 ∧ mi < 60 ∧ sec < 60 then
                  some ⟨y, mo, d, h, mi, sec, 0⟩
                else none

/-- `CrewmeisterStamp.timestamp`: empty value gives `None`; otherwise
`Z` is normalised to `+00:00` and the string re-parsed (`ValueError`
gives `None`). -/
def stampTimestampAccessor (value : String) : Option UtcTimestamp :=
  if value = "" then none
  else parseIsoUtc (pyReplace value "Z" "+00:00").data

/-- C1: the status deriver is total (a Lean function), deterministic, and
agrees with the spec's table on every input, including unrecognized stamp
types and non-`OPEN` statuses (which default to `clocked_out`). -/
theorem deriveStatus_matches_spec_table (stamp : Option RawDict) :
    deriveStatus stamp = specDeriveStatus stamp := by
  cases stamp with
  | none => rfl
  | some raw =>
    simp only [deriveStatus, specDeriveStatus, STAMP_TYPE_START_BREAK,
      STAMP_TYPE_START_WORK, STAMP_TYPE_CLOCK_OUT]
    cases hOpen : isStr (stampStatusOf raw) "OPEN" <;>
      cases hBrk : isStr (stampTypeOf raw) "START_BREAK" <;>
      cases hWrk : isStr (stampTypeOf raw) "START_WORK" <;>
      simp_all [ite_self]

/-- Helper: the chain start resolved by `_extract_chain_start` when the
stamp carries a usable `chainStartStampId`, or none of the chain keys and a
usable `id`. -/
theorem extractChainStart_of_fields (latest : RawDict) (c : Int)
    (hchain : dictGetPy latest "chainStartStampId" = some (JVal.jint c)
      ∨ (dictGetPy latest "chainStartStampId" = none
         ∧ dictGetPy latest "chain_start_stamp_id" = none
         ∧ dictGetPy latest "id" = some (JVal.jint c))) :
    extractChainStart (some latest) = some c := by
  have hne : latest.isEmpty = false := by
    cases hl : latest with
    | nil =>
      exfalso
      rcases hchain with h | ⟨h1, _, h3⟩
      · rw [hl] at h; simp [dictGetPy, dictLookup] at h
      · rw [hl] at h3; simp [dictGetPy, dictLookup] at h3
    | cons a l => simp [List.isEmpty]
  rcases hchain with h | ⟨h1, h2, h3⟩
  · simp [extractChainStart, hne, h, coerceInt]
  · simp [extractChainStart, hne, h1, h2, h3, coerceInt]

/-- C4: illegal transitions are rejected synchronously: `start_work` while
`clocked_in` raises, `start_break` raises unless the status is
`clocked_in`, `clock_out` raises unless the status is `clocked_in` or
`on_break`; and whenever the validator rejects, `async_press` surfaces that
error before any create-stamp request is built (no network call). -/
theorem transition_rejection (s ty today : String) (latest : Option RawDict)
    (hrej : (ensureValidTransition ty (some s)).isSome) :
    ((ensureValidTransition STAMP_TYPE_START_WORK (some s)).isSome ↔ s = "clocked_in")
    ∧ ((ensureValidTransition STAMP_TYPE_START_BREAK (some s)).isSome ↔ s ≠ "clocked_in")
    ∧ ((ensureValidTransition STAMP_TYPE_CLOCK_OUT (some s)).isSome
        ↔ (s ≠ "clocked_in" ∧ s ≠ "on_break"))
    ∧ asyncPress today ty (some ⟨latest, s⟩) =
        Except.error ((ensureValidTransition ty (some s)).getD "") := by
  refine ⟨?_, ?_, ?_, ?_⟩
  · by_cases h : s = "clocked_in" <;>
      simp [ensureValidTransition, STAMP_TYPE_START_WORK, h]
  · by_cases h : s = "clocked_in" <;>
      simp [ensureValidTransition, STAMP_TYPE_START_BREAK, STAMP_TYPE_START_WORK, h]
  · by_cases h1 : s = "clocked_in" <;> by_cases h2 : s = "on_break" <;>
      simp [ensureValidTransition, STAMP_TYPE_CLOCK_OUT, STAMP_TYPE_START_WORK,
        STAMP_TYPE_START_BREAK, h1, h2]
  · obtain ⟨err, herr⟩ := Option.isSome_iff_exists.mp hrej
    simp [asyncPress, herr]

/-- Witness for C4 at the concrete status `clocked_out` and action
`clock_out`. -/
theorem transition_rejection_witness :
    ((ensureValidTransition STAMP_TYPE_START_WORK (some "clocked_out")).isSome
      ↔ "clocked_out" = "clocked_in")
    ∧ ((ensureValidTransition STAMP_TYPE_START_BREAK (some "clocked_out")).isSome
      ↔ "clocked_out" ≠ "clocked_in")
    ∧ ((ensureValidTransition STAMP_TYPE_CLOCK_OUT (some "clocked_out")).isSome
      ↔ ("clocked_out" ≠ "clocked_in" ∧ "clocked_out" ≠ "on_break"))
    ∧ asyncPress "2024-05-01" STAMP_TYPE_CLOCK_OUT (some ⟨none, "clocked_out"⟩) =
        Except.error ((ensureValidTransition STAMP_TYPE_CLOCK_OUT (some "clocked_out")).getD "") :=
  transition_rejection "clocked_out" STAMP_TYPE_CLOCK_OUT "2024-05-01" none (by decide)

/-- C2: for a snapshot with status `clocked_in` or `on_break`, every
accepted button action sends a request whose `chainStartStampId` is the
latest stamp's `chainStartStampId` (or its `id` when the chain field is
absent), and carries the latest stamp's `allocationDate` forward unchanged
when present; for status `clocked_out`, a `start_work` request carries no
chain id. -/
theorem chain_invariant
    (ty status today : String) (latest : RawDict) (latest0 : Option RawDict) (c : Int)
    (hstatus : status = "clocked_in" ∨ status = "on_break")
    (hty : ty ∈ STAMP_TYPES)
    (hacc : ensureValidTransition ty (some status) = none)
    (hchain : dictGetPy latest "chainStartStampId" = some (JVal.jint c)
      ∨ (dictGetPy latest "chainStartStampId" = none
         ∧ dictGetPy latest "chain_start_stamp_id" = none
         ∧ dictGetPy latest "id" = some (JVal.jint c))) :
    asyncPress today ty (some ⟨some latest, status⟩) =
      Except.ok
        { stampType := ty
          chainStartStampId := some c
          allocationDate :=
            match dictGetPy latest "allocationDate" with
            | some (JVal.jstr a) => if a ≠ "" then a else today
            | _ => today }
    ∧ asyncPress today STAMP_TYPE_START_WORK (some ⟨latest0, "clocked_out"⟩) =
        Except.ok { stampType := STAMP_TYPE_START_WORK, chainStartStampId := none,
                    allocationDate := today } := by
  have hcs := extractChainStart_of_fields latest c hchain
  constructor
  · simp only [STAMP_TYPES, STAMP_TYPE_START_WORK, STAMP_TYPE_START_BREAK,
      STAMP_TYPE_CLOCK_OUT, List.mem_cons, List.not_mem_nil, or_false] at hty
    rcases hty with hty | hty | hty <;> subst hty
    · -- start_work: accepted only while on_break
      have hob : status = "on_break" := by
        rcases hstatus with h | h
        · subst h; simp [ensureValidTransition, STAMP_TYPE_START_WORK] at hacc
        · exact h
      subst hob
      simp only [asyncPress, ensureValidTransition, STAMP_TYPE_START_WORK,
        prepareStampKwargs, createStamp, STAMP_TYPES]
      simp [hcs, createStamp, STAMP_TYPES, STAMP_TYPE_START_WORK]
      cases halloc : dictGetPy latest "allocationDate" with
      | none => simp
      | some v =>
        cases v <;> simp
        case jstr a => by_cases ha : a = "" <;> simp [ha]
    · -- start_break: accepted only while clocked_in
      have hci : status = "clocked_in" := by
        rcases hstatus with h | h
        · exact h
        · subst h
          simp [ensureValidTransition, STAMP_TYPE_START_BREAK, STAMP_TYPE_START_WORK] at hacc
      subst hci
      simp only [asyncPress, ensureValidTransition, STAMP_TYPE_START_BREAK,
        STAMP_TYPE_START_WORK, prepareStampKwargs]
      simp [hcs, createStamp, STAMP_TYPES, STAMP_TYPE_START_BREAK, STAMP_TYPE_START_WORK,
        STAMP_TYPE_CLOCK_OUT]
      cases halloc : dictGetPy latest "allocationDate" with
      | none => simp
      | some v =>
        cases v <;> simp
        case jstr a => by_cases ha : a = "" <;> simp [ha]
    · -- clock_out: accepted while clocked_in or on_break
      have hvalid : ensureValidTransition STAMP_TYPE_CLOCK_OUT (some status) = none := hacc
      simp only [asyncPress, prepareStampKwargs]
      rcases hstatus with h | h <;> subst h <;>
        simp [ensureValidTransition, STAMP_TYPE_CLOCK_OUT, STAMP_TYPE_START_WORK,
          STAMP_TYPE_START_BREAK, hcs, createStamp, STAMP_TYPES] <;>
        (cases halloc : dictGetPy latest "allocationDate" with
        | none => simp
        | some v =>
          cases v <;> simp
          case jstr a => by_cases ha : a = "" <;> simp [ha])
  · simp [asyncPress, ensureValidTransition, STAMP_TYPE_START_WORK, prepareStampKwargs,
      createStamp, STAMP_TYPES, emptyKwargs]

/-- Witness for C2 on the spec's example scenario: pressing start-break
while clocked in on `exampleStamp` yields `chain_start_stamp_id = 42` with
allocation date `2024-05-01`. -/
theorem chain_invariant_witness :
    asyncPress "2024-06-02" STAMP_TYPE_START_BREAK (some ⟨some exampleStamp, "clocked_in"⟩) =
      Except.ok
        { stampType := STAMP_TYPE_START_BREAK
          chainStartStampId := some 42
          allocationDate :=
            match dictGetPy exampleStamp "allocationDate" with
            | some (JVal.jstr a) => if a ≠ "" then a else "2024-06-02"
            | _ => "2024-06-02" }
    ∧ asyncPress "2024-06-02" STAMP_TYPE_START_WORK (some ⟨none, "clocked_out"⟩) =
        Except.ok { stampType := STAMP_TYPE_START_WORK, chainStartStampId := none,
                    allocationDate := "2024-06-02" } :=
  chain_invariant STAMP_TYPE_START_BREAK "clocked_in" "2024-06-02" exampleStamp none 42
    (Or.inl rfl) (by decide) (by decide)
    (Or.inr ⟨by rfl, by rfl, by rfl⟩)

/-- C3 counterexample: start-break from an active shift whose latest stamp
yields no chain id does NOT fail fast — `async_press` reaches the network
call and sends the create-stamp request with the chain field silently
omitted (`_prepare_stamp_kwargs` returns `{}` in this case). -/
theorem chain_required_missing_counterexample :
    extractChainStart (some noChainStamp) = none
    ∧ ensureValidTransition STAMP_TYPE_START_BREAK (some "clocked_in") = none
    ∧ asyncPress "2024-05-01" STAMP_TYPE_START_BREAK (some ⟨some noChainStamp, "clocked_in"⟩)
        = Except.ok { stampType := STAMP_TYPE_START_BREAK, chainStartStampId := none,
                      allocationDate := "2024-05-01" } :=
  ⟨rfl, rfl, rfl⟩

/-- C3 amended: when no chain id can be determined for an action that
requires one, the action does not fail; it proceeds to the network call
with empty kwargs, leaving the chain field (and the carried allocation
date) out of the request and letting the API resolve the chain. -/
theorem chain_missing_proceeds_without_chain
    (ty status today : String) (latest : Option RawDict)
    (hty : ty ∈ STAMP_TYPES)
    (hacc : ensureValidTransition ty (some status) = none)
    (hreq : ty = STAMP_TYPE_START_BREAK ∨ ty = STAMP_TYPE_CLOCK_OUT
      ∨ (ty = STAMP_TYPE_START_WORK ∧ status = "on_break"))
    (hnochain : extractChainStart latest = none) :
    asyncPress today ty (some ⟨latest, status⟩) =
      Except.ok { stampType := ty, chainStartStampId := none, allocationDate := today } := by
  rcases hreq with hty1 | hty1 | ⟨hty1, hst⟩
  · subst hty1
    simp only [STAMP_TYPE_START_BREAK] at hacc
    simp [asyncPress, hacc, prepareStampKwargs, hnochain, emptyKwargs, createStamp,
      STAMP_TYPES, STAMP_TYPE_START_BREAK, STAMP_TYPE_START_WORK]
  · subst hty1
    simp only [STAMP_TYPE_CLOCK_OUT] at hacc
    simp [asyncPress, hacc, prepareStampKwargs, hnochain, emptyKwargs, createStamp,
      STAMP_TYPES, STAMP_TYPE_CLOCK_OUT, STAMP_TYPE_START_WORK, STAMP_TYPE_START_BREAK]
  · subst hty1
    subst hst
    simp only [STAMP_TYPE_START_WORK] at hacc
    simp [asyncPress, hacc, prepareStampKwargs, hnochain, emptyKwargs, createStamp,
      STAMP_TYPES, STAMP_TYPE_START_WORK]

/-- Witness for the amended C3 at the concrete no-chain stamp. -/
theorem chain_missing_proceeds_without_chain_witness :
    asyncPress "2024-05-01" STAMP_TYPE_CLOCK_OUT (some ⟨some noChainStamp, "on_break"⟩) =
      Except.ok { stampType := STAMP_TYPE_CLOCK_OUT, chainStartStampId := none,
                  allocationDate := "2024-05-01" } :=
  chain_missing_proceeds_without_chain STAMP_TYPE_CLOCK_OUT "on_break" "2024-05-01"
    (some noChainStamp) (by decide) (by decide) (Or.inr (Or.inl rfl)) (by rfl)

/-- C10: with no status in the snapshot (coordinator data absent before the
first successful refresh), the transition validator accepts every stamp
type, and a press of any of the three buttons issues the create-stamp call
with no chain parameters attached. -/
theorem press_before_first_refresh (ty ty2 today : String) (hty : ty ∈ STAMP_TYPES) :
    ensureValidTransition ty2 none = none
    ∧ asyncPress today ty none =
        Except.ok { stampType := ty, chainStartStampId := none, allocationDate := today } := by
  refine ⟨rfl, ?_⟩
  simp only [STAMP_TYPES, STAMP_TYPE_START_WORK, STAMP_TYPE_START_BREAK,
    STAMP_TYPE_CLOCK_OUT, List.mem_cons, List.not_mem_nil, or_false] at hty
  rcases hty with hty | hty | hty <;> subst hty <;> rfl

/-- Witness for C10 at the start-break button. -/
theorem press_before_first_refresh_witness :
    ensureValidTransition "bogus_type" none = none
    ∧ asyncPress "2024-05-01" STAMP_TYPE_START_BREAK none =
        Except.ok { stampType := STAMP_TYPE_START_BREAK, chainStartStampId := none,
                    allocationDate := "2024-05-01" } :=
  press_before_first_refresh STAMP_TYPE_START_BREAK "bogus_type" "2024-05-01" (by decide)

/-- C7: `ensure_logged_in` re-logs-in exactly when the token is absent, the
token payload has no expiration, or the expiration is less than
`TOKEN_REFRESH_MARGIN` (300) seconds after now; in every other state it
performs no login and leaves the token state unchanged. -/
theorem ensure_logged_in_condition (env : ApiEnv) (st : ClientState) (e : Int) :
    (ensureLoggedIn env { token := none }).2 = 1
    ∧ (ensureLoggedIn env { token := some { exp := none } }).2 = 1
    ∧ ((ensureLoggedIn env { token := some { exp := some e } }).2 = 1
        ↔ e - env.now < TOKEN_REFRESH_MARGIN)
    ∧ (¬ e - env.now < TOKEN_REFRESH_MARGIN →
        ensureLoggedIn env { token := some { exp := some e } }
          = ({ token := some { exp := some e } }, 0))
    ∧ ((ensureLoggedIn env st).2 = 0 → (ensureLoggedIn env st).1 = st) := by
  refine ⟨rfl, rfl, ?_, ?_, ?_⟩
  · by_cases h : e - env.now < TOKEN_REFRESH_MARGIN <;>
      simp [ensureLoggedIn, needsRefresh, h]
  · intro h
    simp [ensureLoggedIn, needsRefresh, h]
  · intro h
    by_cases hr : needsRefresh env.now st = true <;> simp_all [ensureLoggedIn]

/-- Witness for C7: a token expiring 100000 seconds after now triggers no
re-login and leaves the state unchanged. -/
theorem ensure_logged_in_condition_witness :
    (ensureLoggedIn envOk { token := none }).2 = 1
    ∧ (ensureLoggedIn envOk { token := some { exp := none } }).2 = 1
    ∧ ((ensureLoggedIn envOk { token := some { exp := some 100000 } }).2 = 1
        ↔ (100000 : Int) - envOk.now < TOKEN_REFRESH_MARGIN)
    ∧ (¬ (100000 : Int) - envOk.now < TOKEN_REFRESH_MARGIN →
        ensureLoggedIn envOk { token := some { exp := some 100000 } }
          = ({ token := some { exp := some 100000 } }, 0))
    ∧ ((ensureLoggedIn envOk { token := some { exp := some 100000 } }).2 = 0 →
        (ensureLoggedIn envOk { token := some { exp := some 100000 } }).1
          = { token := some { exp := some 100000 } }) :=
  ensure_logged_in_condition envOk { token := some { exp := some 100000 } } 100000

/-- C5: a 401 triggers exactly one re-login-and-retry cycle. With the first
wire response 401 (and freshly issued tokens valid, as real tokens are),
the overall call performs exactly two wire requests and exactly one login
beyond what the initial `ensure_logged_in` did (never more than two
logins); its result is the second response: a second 401 propagates as a
`CrewmeisterError` from `_request_json` with no third login attempt, while
a success status makes the overall request succeed. -/
theorem unauthorized_retry (env : ApiEnv) (st : ClientState) (idx : Nat)
    (h401 : env.statuses idx = 401)
    (hfresh : needsRefresh env.now (loginState env) = false) :
    (asyncApiRequest env st true idx).requests = 2
    ∧ (asyncApiRequest env st true idx).status = env.statuses (idx + 1)
    ∧ (asyncApiRequest env st true idx).logins = (ensureLoggedIn env st).2 + 1
    ∧ (asyncApiRequest env st true idx).logins ≤ 2
    ∧ (env.statuses (idx + 1) = 401 →
        requestJson env st idx = Except.error "Crewmeister API error")
    ∧ (env.statuses (idx + 1) < 400 →
        requestJson env st idx = Except.ok (env.statuses (idx + 1))) := by
  have hens : ensureLoggedIn env (loginState env) = (loginState env, 0) := by
    simp [ensureLoggedIn, hfresh]
  have hinner : asyncApiRequest env (loginState env) false (idx + 1) =
      { state := loginState env, logins := 0, requests := 1,
        status := env.statuses (idx + 1) } := by
    rw [asyncApiRequest]
    simp [hens]
  have houter : asyncApiRequest env st true idx =
      { state := loginState env, logins := (ensureLoggedIn env st).2 + 1 + 0,
        requests := 1 + 1, status := env.statuses (idx + 1) } := by
    rw [asyncApiRequest]
    simp [h401, hinner]
  have hle : (ensureLoggedIn env st).2 ≤ 1 := by
    by_cases h : needsRefresh env.now st = true <;> simp [ensureLoggedIn, h]
  refine ⟨by rw [houter], by rw [houter], by rw [houter],
    by rw [houter]; show (ensureLoggedIn env st).2 + 1 + 0 ≤ 2; omega, ?_, ?_⟩
  · intro h2
    simp [requestJson, houter, h2]
  · intro h2
    simp [requestJson, houter]
    omega

/-- Witness for C5: a 401 followed by a 200 after re-login, starting with
no token (so the initial ensure performs one login, the 401 handler exactly
one more). -/
theorem unauthorized_retry_witness :
    (asyncApiRequest env401Then200 { token := none } true 0).requests = 2
    ∧ (asyncApiRequest env401Then200 { token := none } true 0).status
        = env401Then200.statuses 1
    ∧ (asyncApiRequest env401Then200 { token := none } true 0).logins
        = (ensureLoggedIn env401Then200 { token := none }).2 + 1
    ∧ (asyncApiRequest env401Then200 { token := none } true 0).logins ≤ 2
    ∧ (env401Then200.statuses 1 = 401 →
        requestJson env401Then200 { token := none } 0 = Except.error "Crewmeister API error")
    ∧ (env401Then200.statuses 1 < 400 →
        requestJson env401Then200 { token := none } 0
          = Except.ok (env401Then200.statuses 1)) :=
  unauthorized_retry env401Then200 { token := none } 0 (by decide)
    (by simp [needsRefresh, loginState, env401Then200, TOKEN_REFRESH_MARGIN])

/-- C6 counterexample: `decode_jwt_payload` is not total. On the token
`a._w.c` the middle segment pads to `_w==`, which base64url-decodes
without error to the byte `0xff`; `json.loads` then raises
`UnicodeDecodeError` (not a `JSONDecodeError`), which the source's
`except json.JSONDecodeError` clause does not catch, so the call raises
instead of yielding the empty claims mapping. -/
theorem decode_jwt_payload_not_total_counterexample :
    decodeJwtPayload b64UnderscoreW jsonLoadsCPython "a._w.c"
      = Except.error "UnicodeDecodeError"
    ∧ (pySplitDot "a._w.c").length = 3
    ∧ b64UnderscoreW (padB64 ((pySplitDot "a._w.c").getD 1 "")) = some [255] :=
  ⟨rfl, rfl, rfl⟩

/-- C6 amended: a token with other than three dot-separated segments, a
middle segment the base64url decoder rejects, or decoded bytes failing
with `JSONDecodeError`, all yield the empty claims mapping; but a
`json.loads` failure that is not a `JSONDecodeError` (such as the
`UnicodeDecodeError` raised on non-UTF-8 decoded bytes) propagates out of
`decode_jwt_payload`, so the function is not total. -/
theorem decode_jwt_payload_error_paths (b64decode : String → Option (List Nat))
    (jsonLoads : List Nat → JsonLoadResult) (token : String) (bs : List Nat) :
    ((pySplitDot token).length ≠ 3 →
      decodeJwtPayload b64decode jsonLoads token = Except.ok (JVal.jobj []))
    ∧ ((pySplitDot token).length = 3 →
        b64decode (padB64 ((pySplitDot token).getD 1 "")) = none →
        decodeJwtPayload b64decode jsonLoads token = Except.ok (JVal.jobj []))
    ∧ ((pySplitDot token).length = 3 →
        b64decode (padB64 ((pySplitDot token).getD 1 "")) = some bs →
        jsonLoads bs = JsonLoadResult.jsonDecodeError →
        decodeJwtPayload b64decode jsonLoads token = Except.ok (JVal.jobj []))
    ∧ ((pySplitDot token).length = 3 →
        b64decode (padB64 ((pySplitDot token).getD 1 "")) = some bs →
        jsonLoads bs = JsonLoadResult.uncaughtError →
        decodeJwtPayload b64decode jsonLoads token = Except.error "UnicodeDecodeError") := by
  refine ⟨?_, ?_, ?_, ?_⟩
  · intro h
    simp [decodeJwtPayload, h]
  · intro h3 hb
    simp only [decodeJwtPayload, h3, ne_eq, not_true_eq_false, if_false, hb]
  · intro h3 hb hj
    simp only [decodeJwtPayload, h3, ne_eq, not_true_eq_false, if_false, hb, hj]
  · intro h3 hb hj
    simp only [decodeJwtPayload, h3, ne_eq, not_true_eq_false, if_false, hb, hj]

/-- Witness for the amended C6 on four concrete tokens: two segments only,
a base64-rejected middle segment, a JSON-rejected middle segment, and the
non-UTF-8 segment whose error propagates. -/
theorem decode_jwt_payload_error_paths_witness :
    decodeJwtPayload b64Fix jsonLoadsCPython "two.parts" = Except.ok (JVal.jobj [])
    ∧ decodeJwtPayload b64None jsonLoadsCPython "a.b.c" = Except.ok (JVal.jobj [])
    ∧ decodeJwtPayload b64Fix jsonLoadsCPython "a.b.c" = Except.ok (JVal.jobj [])
    ∧ decodeJwtPayload b64UnderscoreW jsonLoadsCPython "a._w.c"
        = Except.error "UnicodeDecodeError" :=
  ⟨(decode_jwt_payload_error_paths b64Fix jsonLoadsCPython "two.parts" []).1 (by decide),
   (decode_jwt_payload_error_paths b64None jsonLoadsCPython "a.b.c" []).2.1 (by decide) rfl,
   (decode_jwt_payload_error_paths b64Fix jsonLoadsCPython "a.b.c" [1]).2.2.1
     (by decide) rfl rfl,
   (decode_jwt_payload_error_paths b64UnderscoreW jsonLoadsCPython "a._w.c" [255]).2.2.2
     (by decide) rfl rfl⟩

/-- A candidate returned by the truthiness loop is non-empty. -/
theorem firstTruthyString_ne_empty (l : List String) (t : String)
    (h : firstTruthyString l = some t) : t ≠ "" := by
  induction l with
  | nil => simp [firstTruthyString] at h
  | cons c rest ih =>
    by_cases hc : c = ""
    · simp [firstTruthyString, hc] at h
      exact ih h
    · simp [firstTruthyString, hc] at h
      subst h; exact hc

/-- C8 counterexample: with language `en`, an exact translation match
`ExactName` and a localized-name field `LocalizedName`, the code returns
the localized-name field, while the claimed precedence (exact match first)
would return the translation. -/
theorem absence_name_precedence_counterexample :
    absenceTypeName (some c8Info) (some "en") = some (JVal.jstr "LocalizedName")
    ∧ specAbsenceTypeName (some c8Info) (some "en") = some (JVal.jstr "ExactName")
    ∧ ("LocalizedName" : String) ≠ "ExactName" :=
  ⟨rfl, rfl, by decide⟩

/-- C8 amended: for every metadata object and configured language, name
resolution follows the precedence the code implements: the generic
localized-name field first, then the first non-empty translation collected
from `translations` then `nameTranslations` in mapping order (exact and
primary-subtag matches not prioritised against each other), and only then
the generic `name`/`displayName`/`absenceTypeName` fields. -/
theorem absence_name_actual_precedence (info : Option RawDict) (language : Option String) :
    absenceTypeName info language = amendedAbsenceTypeName info language := by
  cases info with
  | none => rfl
  | some data =>
    cases hemp : data.isEmpty with
    | true => simp [absenceTypeName, amendedAbsenceTypeName, hemp]
    | false =>
      cases language with
      | none =>
        simp [absenceTypeName, amendedAbsenceTypeName, hemp, extractTranslatedName]
      | some lang =>
        simp only [absenceTypeName, amendedAbsenceTypeName, hemp, extractTranslatedName,
          Bool.false_eq_true, if_false]
        cases hloc : pyOrJ (dictGetPy data "displayNameLocalized")
            (dictGetPy data "nameLocalized") with
        | none =>
          cases hf : firstTruthyString
              ((match dictGetPy data "translations" with
                | some (JVal.jobj t) =>
                  iterTranslationMatches t (pyToLower lang) (primarySubtag (pyToLower lang))
                | _ => []) ++
               (match dictGetPy data "nameTranslations" with
                | some (JVal.jobj t) =>
                  iterTranslationMatches t (pyToLower lang) (primarySubtag (pyToLower lang))
                | _ => [])) with
          | none => simp [hloc, hf]
          | some t => simp [hloc, hf, firstTruthyString_ne_empty _ t hf]
        | some v =>
          cases v with
          | jstr s =>
            by_cases hs : s = ""
            · subst hs
              simp only [hloc, ne_eq, not_true_eq_false, if_false]
              cases hf : firstTruthyString
                  ((match dictGetPy data "translations" with
                    | some (JVal.jobj t) =>
                      iterTranslationMatches t (pyToLower lang) (primarySubtag (pyToLower lang))
                    | _ => []) ++
                   (match dictGetPy data "nameTranslations" with
                    | some (JVal.jobj t) =>
                      iterTranslationMatches t (pyToLower lang) (primarySubtag (pyToLower lang))
                    | _ => [])) with
              | none => simp [hf]
              | some t => simp [hf, firstTruthyString_ne_empty _ t hf]
            · simp [hloc, hs]
          | jnull =>
            cases hf : firstTruthyString
                ((match dictGetPy data "translations" with
                  | some (JVal.jobj t) =>
                    iterTranslationMatches t (pyToLower lang) (primarySubtag (pyToLower lang))
                  | _ => []) ++
                 (match dictGetPy data "nameTranslations" with
                  | some (JVal.jobj t) =>
                    iterTranslationMatches t (pyToLower lang) (primarySubtag (pyToLower lang))
                  | _ => [])) with
            | none => simp [hloc, hf]
            | some t => simp [hloc, hf, firstTruthyString_ne_empty _ t hf]
          | jbool b =>
            cases hf : firstTruthyString
                ((match dictGetPy data "translations" with
                  | some (JVal.jobj t) =>
                    iterTranslationMatches t (pyToLower lang) (primarySubtag (pyToLower lang))
                  | _ => []) ++
                 (match dictGetPy data "nameTranslations" with
                  | some (JVal.jobj t) =>
                    iterTranslationMatches t (pyToLower lang) (primarySubtag (pyToLower lang))
                  | _ => [])) with
            | none => simp [hloc, hf]
            | some t => simp [hloc, hf, firstTruthyString_ne_empty _ t hf]
          | jint n =>
            cases hf : firstTruthyString
                ((match dictGetPy data "translations" with
                  | some (JVal.jobj t) =>
                    iterTranslationMatches t (pyToLower lang) (primarySubtag (pyToLower lang))
                  | _ => []) ++
                 (match dictGetPy data "nameTranslations" with
                  | some (JVal.jobj t) =>
                    iterTranslationMatches t (pyToLower lang) (primarySubtag (pyToLower lang))
                  | _ => [])) with
            | none => simp [hloc, hf]
            | some t => simp [hloc, hf, firstTruthyString_ne_empty _ t hf]
          | jobj o =>
            cases hf : firstTruthyString
                ((match dictGetPy data "translations" with
                  | some (JVal.jobj t) =>
                    iterTranslationMatches t (pyToLower lang) (primarySubtag (pyToLower lang))
                  | _ => []) ++
                 (match dictGetPy data "nameTranslations" with
                  | some (JVal.jobj t) =>
                    iterTranslationMatches t (pyToLower lang) (primarySubtag (pyToLower lang))
                  | _ => [])) with
            | none => simp [hloc, hf]
            | some t => simp [hloc, hf, firstTruthyString_ne_empty _ t hf]

/-- Decimal digit characters are neither `+` nor `Z`, and `digitVal`
inverts `digitOf` on them. -/
theorem digit_facts : ∀ n : Nat, n < 10 →
    digitOf n ≠ '+' ∧ digitOf n ≠ 'Z' ∧ digitVal (digitOf n) = some n := by
  decide

/-- Every month length fits in two digits. -/
theorem daysInMonth_le31 (y m : Nat) : daysInMonth y m ≤ 31 := by
  unfold daysInMonth
  split <;> first | omega | (split <;> omega)

/-- Characters of a two-digit field are digits, hence neither `+` nor
`Z`. -/
theorem pad2_no_plus_z (n : Nat) (hn : n < 100) : ∀ c ∈ pad2 n, c ≠ '+' ∧ c ≠ 'Z' := by
  intro c hc
  simp only [pad2, List.mem_cons, List.not_mem_nil, or_false] at hc
  rcases hc with rfl | rfl
  · exact ⟨(digit_facts _ (by omega)).1, (digit_facts _ (by omega)).2.1⟩
  · exact ⟨(digit_facts _ (by omega)).1, (digit_facts _ (by omega)).2.1⟩

/-- Characters of the four-digit year field are digits, hence neither `+`
nor `Z`. -/
theorem pad4_no_plus_z (n : Nat) (hn : n < 10000) : ∀ c ∈ pad4 n, c ≠ '+' ∧ c ≠ 'Z' := by
  intro c hc
  simp only [pad4, List.mem_cons, List.not_mem_nil, or_false] at hc
  rcases hc with rfl | rfl | rfl | rfl <;>
    exact ⟨(digit_facts _ (by omega)).1, (digit_facts _ (by omega)).2.1⟩

/-- The date-time body of a valid timestamp contains neither `+` nor `Z`
(it is digits and the separators `-`, `T`, `:`). -/
theorem isoBody_no_plus_z (t : UtcTimestamp) (h : validTs t) :
    ∀ c ∈ isoBody t, c ≠ '+' ∧ c ≠ 'Z' := by
  obtain ⟨h1, h2, h3, h4, h5, h6, h7, h8, h9, _⟩ := h
  have hd := daysInMonth_le31 t.year t.month
  intro c hc
  simp only [isoBody, List.mem_append, List.mem_cons] at hc
  rcases hc with hp | rfl | hp | rfl | hp | rfl | hp | rfl | hp | rfl | hp
  · exact pad4_no_plus_z t.year (by omega) c hp
  · decide
  · exact pad2_no_plus_z t.month (by omega) c hp
  · decide
  · exact pad2_no_plus_z t.day (by omega) c hp
  · decide
  · exact pad2_no_plus_z t.hour (by omega) c hp
  · decide
  · exact pad2_no_plus_z t.minute (by omega) c hp
  · decide
  · exact pad2_no_plus_z t.second (by omega) c hp

/-- `str.replace("+00:00", rep)` on a string that is a `+`-free body
followed by exactly one `+00:00` replaces exactly that suffix. -/
theorem replace_plus_suffix (rep : List Char) (body : List Char)
    (h : ∀ c ∈ body, c ≠ '+') :
    replaceAllAux ("+00:00".data) rep (body.length + 6) (body ++ "+00:00".data)
      = body ++ rep := by
  induction body with
  | nil =>
    show replaceAllAux ("+00:00".data) rep 6 ("+00:00".data) = rep
    have heval : replaceAllAux ("+00:00".data) rep 6 ("+00:00".data) = rep ++ [] := rfl
    simpa using heval
  | cons c body ih =>
    have hc : ('+' == c) = false :=
      beq_eq_false_iff_ne.mpr (Ne.symm (h c (List.mem_cons_self c body)))
    have hf : (c :: body).length + 6 = (body.length + 6) + 1 := by
      simp [List.length_cons]
    rw [hf]
    show replaceAllAux ("+00:00".data) rep ((body.length + 6) + 1)
        (c :: (body ++ "+00:00".data)) = c :: (body ++ rep)
    rw [replaceAllAux]
    simp only [List.isPrefixOf, hc, Bool.false_and, Bool.and_eq_true, Bool.false_eq_true,
      false_and, if_false, Bool.false_and]
    rw [ih (fun d hd => h d (List.mem_cons_of_mem c hd))]

/-- `str.replace("Z", rep)` on a string that is a `Z`-free body followed by
exactly one `Z` replaces exactly that suffix. -/
theorem replace_z_suffix (rep : List Char) (body : List Char)
    (h : ∀ c ∈ body, c ≠ 'Z') :
    replaceAllAux ("Z".data) rep (body.length + 1) (body ++ "Z".data)
      = body ++ rep := by
  induction body with
  | nil =>
    show replaceAllAux ("Z".data) rep 1 ("Z".data) = rep
    have heval : replaceAllAux ("Z".data) rep 1 ("Z".data) = rep ++ [] := rfl
    simpa using heval
  | cons c body ih =>
    have hc : ('Z' == c) = false :=
      beq_eq_false_iff_ne.mpr (Ne.symm (h c (List.mem_cons_self c body)))
    have hf : (c :: body).length + 1 = (body.length + 1) + 1 := by
      simp [List.length_cons]
    rw [hf]
    show replaceAllAux ("Z".data) rep ((body.length + 1) + 1)
        (c :: (body ++ "Z".data)) = c :: (body ++ rep)
    rw [replaceAllAux]
    simp only [List.isPrefixOf, hc, Bool.false_and, Bool.false_eq_true, if_false]
    rw [ih (fun d hd => h d (List.mem_cons_of_mem c hd))]

/-- `read4` consumes a zero-padded four-digit field and returns its value. -/
theorem read4_pad4 (n : Nat) (h : n < 10000) (rest : List Char) :
    read4 (pad4 n ++ rest) = some (n, rest) := by
  have h1 := (digit_facts (n / 1000) (by omega)).2.2
  have h2 := (digit_facts (n / 100 % 10) (by omega)).2.2
  have h3 := (digit_facts (n / 10 % 10) (by omega)).2.2
  have h4 := (digit_facts (n % 10) (by omega)).2.2
  simp only [pad4, List.cons_append, List.nil_append, read4, h1, h2, h3, h4,
    Option.some.injEq, Prod.mk.injEq]
  exact ⟨by omega, trivial⟩

/-- `read2` consumes a zero-padded two-digit field and returns its value. -/
theorem read2_pad2 (n : Nat) (h : n < 100) (rest : List Char) :
    read2 (pad2 n ++ rest) = some (n, rest) := by
  have h1 := (digit_facts (n / 10) (by omega)).2.2
  have h2 := (digit_facts (n % 10) (by omega)).2.2
  simp only [pad2, List.cons_append, List.nil_append, read2, h1, h2,
    Option.some.injEq, Prod.mk.injEq]
  exact ⟨by omega, trivial⟩

theorem expectChar_cons (c : Char) (rest : List Char) :
    expectChar c (c :: rest) = some rest := by
  simp [expectChar]

/-- A separator-prefixed two-digit field parses back to its value. -/
theorem readField_pad2 (sep : Char) (n : Nat) (h : n < 100) (rest : List Char) :
    readField sep (sep :: (pad2 n ++ rest)) = some (n, rest) := by
  simp [readField, expectChar, read2_pad2 n h]

/-- The encoder's offset suffix is accepted as UTC. -/
theorem parseOffsetUtc_data :
    parseOffsetUtc ['+', '0', '0', ':', '0', '0'] = some () := rfl

/-- Parsing inverts formatting on the body of a valid timestamp. -/
theorem parseIsoUtc_isoBody (t : UtcTimestamp) (h : validTs t) :
    parseIsoUtc (isoBody t ++ "+00:00".data) = some (truncateToSeconds t) := by
  obtain ⟨h1, h2, h3, h4, h5, h6, h7, h8, h9, _⟩ := h
  have hd := daysInMonth_le31 t.year t.month
  simp only [isoBody, List.append_assoc, List.cons_append]
  simp only [parseIsoUtc, read4_pad4 t.year (by omega),
    readField_pad2 '-' t.month (by omega), readField_pad2 '-' t.day (by omega),
    readField_pad2 'T' t.hour (by omega), readField_pad2 ':' t.minute (by omega),
    readField_pad2 ':' t.second (by omega), parseOffsetUtc_data]
  rw [if_pos ⟨h1, h3, h4, h5, h6, h7, h8, h9⟩]
  rfl

/-- C9: for every timezone-aware input timestamp (identified with its UTC
components plus microseconds, since `astimezone(utc)` preserves the
instant), the string `async_create_stamp` encodes into the payload (UTC,
truncated to whole seconds, ISO-8601 with `Z` suffix), when re-parsed by
`CrewmeisterStamp.timestamp` (`Z` normalised to `+00:00`), yields exactly
the UTC components of the input truncated to seconds — the same UTC
instant. -/
theorem stamp_timestamp_roundtrip (t : UtcTimestamp) (h : validTs t) :
    stampTimestampAccessor (encodeStampTimestamp t) = some (truncateToSeconds t) := by
  have hbody := isoBody_no_plus_z t h
  have hlen6 : ("+00:00".data : List Char).length = 6 := rfl
  have hlen1 : ("Z".data : List Char).length = 1 := rfl
  have henc : encodeStampTimestamp t = String.mk (isoBody t ++ "Z".data) := by
    show String.mk (replaceAllAux ("+00:00".data) ("Z".data)
        ((isoBody t ++ "+00:00".data).length) (isoBody t ++ "+00:00".data))
      = String.mk (isoBody t ++ "Z".data)
    rw [List.length_append, hlen6,
      replace_plus_suffix ("Z".data) (isoBody t) (fun c hc => (hbody c hc).1)]
  have hne : String.mk (isoBody t ++ "Z".data) ≠ "" := by
    intro he
    have hdata := congrArg String.data he
    simp [isoBody, pad4] at hdata
  rw [henc]
  rw [stampTimestampAccessor, if_neg hne]
  have hz : (pyReplace (String.mk (isoBody t ++ "Z".data)) "Z" "+00:00").data
      = isoBody t ++ "+00:00".data := by
    show replaceAllAux ("Z".data) ("+00:00".data)
        ((isoBody t ++ "Z".data).length) (isoBody t ++ "Z".data)
      = isoBody t ++ "+00:00".data
    rw [List.length_append, hlen1,
      replace_z_suffix ("+00:00".data) (isoBody t) (fun c hc => (hbody c hc).2)]
  rw [hz]
  exact parseIsoUtc_isoBody t h

/-- Witness for C9 at 2024-05-01 13:45:30.123456 UTC. -/
theorem stamp_timestamp_roundtrip_witness :
    stampTimestampAccessor (encodeStampTimestamp ⟨2024, 5, 1, 13, 45, 30, 123456⟩)
      = some (truncateToSeconds ⟨2024, 5, 1, 13, 45, 30, 123456⟩) :=
  stamp_timestamp_roundtrip ⟨2024, 5, 1, 13, 45, 30, 123456⟩ (by decide)
